import Mathlib

/-!
Verification of the download-manager subsystem (src/lib/DownloadManager.js).

The JavaScript source is shallowly embedded: each acquisition job becomes a
pure Lean function from its inputs and an *environment* record (recording the
outcomes of the external filesystem / network / subprocess primitives that the
module obtains from its `./utilities` collaborator) to an outcome record that
carries the settled `DownloadResult` together with the observable side effects
(folder deletions, subprocess invocations).  The `Downloader` class becomes an
explicit state machine.  External collaborators that live outside the source
file (`./utilities`, the `data-uri-regex` package, the JavaScript `parseInt`)
are modelled from their documented contracts, as noted on each definition.
-/

namespace DownloadManager

/-- `path.join(a, b)`, also plain slash concatenation, as used by the source. -/
def joinPath (a b : String) : String := a ++ "/" ++ b

/-- The `DownloadResult` value class: `{folderPath, userError}`, either field
possibly `null` (here `none`). -/
structure DownloadResult where
  folderPath : Option String
  userError : Option String
deriving Repr, DecidableEq

/-- A result value has one of the three documented shapes:
success `(some, none)`, user-facing failure `(none, some)`, or internal
failure `(none, none)`.  Equivalently: never both fields present. -/
def validShape (r : DownloadResult) : Bool :=
  (r.folderPath.isSome && r.userError.isNone) ||
  (r.folderPath.isNone && r.userError.isSome) ||
  (r.folderPath.isNone && r.userError.isNone)

namespace UserErrors

/-- `UserErrors.LoadingBadResponse` from the source. -/
def LoadingBadResponse (url : String) (statusCode : Nat) : String :=
  "failed to download URL " ++ url ++ " - got response status " ++ toString statusCode

/-- `UserErrors.LoadingError` from the source (the error object stringified). -/
def LoadingError (url err : String) : String :=
  "error while loading " ++ url ++ ": " ++ err

/-- `UserErrors.GitCloneFailed` from the source. -/
def GitCloneFailed (url : String) : String :=
  "failed to clone git repository " ++ url

/-- `UserErrors.TarballExtractionFailed` from the source. -/
def TarballExtractionFailed : String :=
  "failed to extract tarball"

/-- `UserErrors.ImageDataUrlExtractionFailed` from the source. -/
def ImageDataUrlExtractionFailed (imgName : String) : String :=
  "failed to save image " ++ imgName ++ " -- expected image data URI"

end UserErrors

/-! ## The Downloader state machine

`Downloader` instances hold `folderPath`, `userError`, `_disposed`,
`_dislabedCleanup` (a field the class never sets anywhere, hence always
falsy) and the memoized `_downloadPromise`.  The cached promise is modelled
by the `DownloadResult` it eventually settles to; the job itself is modelled
by the result value its single execution would produce. -/

structure DownloaderState where
  folderPath : Option String
  userError : Option String
  disposed : Bool
  dislabedCleanup : Bool
  downloadPromise : Option DownloadResult
deriving Repr, DecidableEq

/-- The state the `Downloader` constructor establishes. -/
def DownloaderState.initial : DownloaderState :=
  ⟨none, none, false, false, none⟩

/-- `Downloader.downloadIfNeeded`: if the promise is cached, return it;
otherwise invoke the job, cache the promise, and on settlement copy the
result fields onto the instance.  Returns the new state, the value the
returned promise resolves to, and whether the job was invoked by this call. -/
def downloadIfNeeded (job : DownloadResult) (s : DownloaderState) :
    DownloaderState × DownloadResult × Bool :=
  match s.downloadPromise with
  | some r => (s, r, false)
  | none =>
      ({ s with
          downloadPromise := some job
          folderPath := job.folderPath
          userError := job.userError }, job, true)

/-- `Downloader.dispose`: no-op if already disposed; otherwise mark disposed,
then (the never-set `_dislabedCleanup` guard, then) no-op if no folder path
was ever produced, else start deleting the folder.  The returned `Bool`
records whether a deletion was initiated. -/
def dispose (s : DownloaderState) : DownloaderState × Bool :=
  if s.disposed then (s, false)
  else
    let s1 := { s with disposed := true }
    if s1.dislabedCleanup then (s1, false)
    else
      match s1.folderPath with
      | none => (s1, false)
      | some _ => (s1, true)

/-- Trigger the downloader `n` times in sequence: final state, the list of
values the `n` returned promises resolve to, and how many of those calls
invoked the job. -/
def triggerN (job : DownloadResult) (s : DownloaderState) : Nat → DownloaderState × List DownloadResult × Nat
  | 0 => (s, [], 0)
  | n + 1 =>
      let step := downloadIfNeeded job s
      let rest := triggerN job step.1 n
      (rest.1, step.2.1 :: rest.2.1, (if step.2.2 then 1 else 0) + rest.2.2)

/-! ## Acquisition jobs

Each `create*Downloader` factory closes over a freshly allocated folder path
and builds an async job.  A job is embedded as a function from its inputs and
an environment record (outcomes of the external primitives) to an outcome
record: the settled `DownloadResult` plus the observable effects. -/

/-- A subprocess invocation: executable, argument vector, and the `timeout`
option in milliseconds when one is passed. -/
structure ExecCmd where
  file : String
  args : List String
  timeoutMs : Option Nat
deriving Repr, DecidableEq

/-- Modelled from the spec: `utils.minutes` lives in `./utilities`, which is
not part of the source tree; the spec fixes the git-clone timeout produced by
`utils.minutes(2)` at exactly 120000 ms, so minutes convert at 60000 ms each. -/
def minutes (n : Nat) : Nat := n * 60 * 1000

/-! ### Text job (`createTextDownloader`) -/

/-- Environment for the text job: outcomes of `utils.mkdir` (via
`createFolder`) and `utils.writeFile`. -/
structure TextEnv where
  mkdirOk : Bool
  writeOk : Bool

/-- Outcome of the text job: settled result, and whether the job deleted the
folder (`utils.rmdir`) on the way. -/
structure TextOutcome where
  result : DownloadResult
  deleted : Bool
deriving Repr, DecidableEq

/-- The job built by `createTextDownloader(text, fileName)` over folder
`folderPath`: create the folder (internal failure if that fails), write the
text file (on failure remove the folder, internal failure), else succeed. -/
def textJob (text fileName folderPath : String) (env : TextEnv) : TextOutcome :=
  if !env.mkdirOk then ⟨⟨none, none⟩, false⟩
  else if !env.writeOk then ⟨⟨none, none⟩, true⟩
  else
    let _ := joinPath folderPath fileName
    let _ := text
    ⟨⟨some folderPath, none⟩, false⟩

/-! ### Git job (`createGitDownloader`) -/

/-- Environment for the git job: whether `utils.exists(folderPath)` reports a
pre-existing directory, and the error message of the `git clone` subprocess
when it fails (`none` = clone succeeded). -/
structure GitEnv where
  existsAlready : Bool
  cloneErr : Option String

/-- Outcome of the git job: settled result, whether any folder deletion was
performed (the source never deletes here), and the subprocess invocation made,
if any. -/
structure GitOutcome where
  result : DownloadResult
  deleted : Bool
  cmd : Option ExecCmd
deriving Repr, DecidableEq

/-- The job built by `createGitDownloader(url)` over folder `folderPath`:
conflict check, then `git clone --depth 1 <url> <dir>` with a
`utils.minutes(2)` timeout; clone failure settles with the clone-failed user
error and performs no cleanup. -/
def gitJob (url folderPath : String) (env : GitEnv) : GitOutcome :=
  if env.existsAlready then ⟨⟨none, none⟩, false, none⟩
  else
    let c : ExecCmd := ⟨"git", ["clone", "--depth", "1", url, folderPath], some (minutes 2)⟩
    match env.cloneErr with
    | some _ => ⟨⟨none, some (UserErrors.GitCloneFailed url)⟩, false, some c⟩
    | none => ⟨⟨some folderPath, none⟩, false, some c⟩

/-! ### URL job (`createURLDownloader`)

The job races three stream events: the `response` handler (which settles
immediately on a status outside `[200, 400)` and otherwise does nothing), the
`error` handler (which removes the folder and settles with a loading error),
and the `finish` handler of the write stream (which settles with success).  The
network interaction either fails outright (`error` without a response) or
delivers a response with a status code whose body stream then finishes or
errors.  The promise keeps the first settlement; handlers that fire after
settlement still run their effects. -/

/-- How the response body stream ends after a response arrived. -/
inductive StreamEnd where
  | finish
  | fail (err : String)
deriving Repr, DecidableEq

/-- The network interaction observed by the url job. -/
inductive NetEvent where
  | response (statusCode : Nat) (rest : StreamEnd)
  | failure (err : String)
deriving Repr, DecidableEq

/-- Environment for the url job. -/
structure UrlEnv where
  mkdirOk : Bool
  net : NetEvent

/-- Outcome of the url job: the settled result, whether the folder was
removed before the promise settled, and whether it was removed by a handler
firing after settlement. -/
structure UrlOutcome where
  result : DownloadResult
  deletedBeforeSettle : Bool
  deletedAfterSettle : Bool
deriving Repr, DecidableEq

/-- The job built by `createURLDownloader(url, fileName)` over folder
`folderPath`.  A bad status (outside `[200, 400)`) settles with the
bad-response user error without deleting the folder (only a later stream
error would delete it, after settlement); a stream `error` deletes the folder
and settles with a loading error; `finish` after an in-band status settles
with success. -/
def urlJob (url fileName folderPath : String) (env : UrlEnv) : UrlOutcome :=
  if !env.mkdirOk then ⟨⟨none, none⟩, false, false⟩
  else
    let _ := joinPath folderPath fileName
    match env.net with
    | .failure err => ⟨⟨none, some (UserErrors.LoadingError url err)⟩, true, false⟩
    | .response statusCode rest =>
        if statusCode < 200 || 400 ≤ statusCode then
          match rest with
          | .finish => ⟨⟨none, some (UserErrors.LoadingBadResponse url statusCode)⟩, false, false⟩
          | .fail _ => ⟨⟨none, some (UserErrors.LoadingBadResponse url statusCode)⟩, false, true⟩
        else
          match rest with
          | .finish => ⟨⟨some folderPath, none⟩, false, false⟩
          | .fail err => ⟨⟨none, some (UserErrors.LoadingError url err)⟩, true, false⟩

/-! ### Tarball job (`createTarballExtractor`) -/

/-- Environment for the tarball job: `createFolder` outcome and the `tar`
subprocess error, if any. -/
structure TarEnv where
  mkdirOk : Bool
  tarErr : Option String

/-- Outcome of the tarball job. -/
structure TarOutcome where
  result : DownloadResult
  deleted : Bool
  cmd : Option ExecCmd
deriving Repr, DecidableEq

/-- The job built by `createTarballExtractor(tarballPath)` over folder
`folderPath`: create the folder, run `tar -xf <archive> -C <dir>` (no timeout
option); on extraction failure remove the folder recursively and settle with
the tarball user error. -/
def tarballJob (tarballPath folderPath : String) (env : TarEnv) : TarOutcome :=
  if !env.mkdirOk then ⟨⟨none, none⟩, false, none⟩
  else
    let c : ExecCmd := ⟨"tar", ["-xf", tarballPath, "-C", folderPath], none⟩
    match env.tarErr with
    | some _ => ⟨⟨none, some UserErrors.TarballExtractionFailed⟩, true, some c⟩
    | none => ⟨⟨some folderPath, none⟩, false, some c⟩

/-! ### JSON job (`createJsonDownloader`)

The transform options arrive as JSON values; the builders inspect them with
JavaScript dynamic typing (`typeof`, property access, `parseInt`).  We embed
the JSON values reachable from a parsed payload. -/

/-- A JavaScript value as it can appear as a transform-option parameter:
a string, an integral number, an object, or `undefined`. -/
inductive JVal where
  | str (s : String)
  | int (n : Int)
  | obj (fields : List (String × JVal))
  | undefined
deriving Repr

/-- JavaScript `ToString` on the values of `JVal`, as `parseInt` applies it. -/
def jsToString : JVal → String
  | .str s => s
  | .int n => toString n
  | .obj _ => "[object Object]"
  | .undefined => "undefined"

/-- Longest leading run of decimal digits, as a number; `none` if the first
character is not a digit. -/
def leadingNat (cs : List Char) : Option Nat :=
  let ds := cs.takeWhile (fun c => c.isDigit)
  if ds.isEmpty then none
  else some (ds.foldl (fun a c => a * 10 + (c.toNat - 48)) 0)

/-- Modelled from JavaScript `parseInt` (an external builtin) on a string:
skip leading whitespace, read an optional sign, then parse the longest
leading run of decimal digits; `none` models `NaN` (no digits found).
The hexadecimal `0x` form of `parseInt` is not modelled. -/
def parseIntChars (cs : List Char) : Option Int :=
  let t := cs.dropWhile (fun c => c.isWhitespace)
  match t with
  | '-' :: rest => (leadingNat rest).map (fun n => -(n : Int))
  | '+' :: rest => (leadingNat rest).map (fun n => (n : Int))
  | _ => (leadingNat t).map (fun n => (n : Int))

/-- JavaScript `parseInt(v)`: stringify, then parse. -/
def parseInt (v : JVal) : Option Int := parseIntChars (jsToString v).toList

/-- JavaScript property access `v[k]` on a non-nullish value: field lookup on
an object, `undefined` otherwise (including missing fields). -/
def jsProp (v : JVal) (k : String) : JVal :=
  match v with
  | .obj fields =>
      match fields.find? (fun p => p.1 == k) with
      | some p => p.2
      | none => .undefined
  | _ => .undefined

/-- The `export-png` builder: requires `typeof` string, produces
`--export-png=<folderPath>/<name>`; otherwise throws. -/
def exportPng (folderPath : String) (v : JVal) : Except String String :=
  match v with
  | .str pngFileName => .ok ("--export-png=" ++ (folderPath ++ "/" ++ pngFileName))
  | _ => .error "File name expected."

/-- The `export-area` builder: reads `x0,y0,x1,y1` off the parameter with
`parseInt`; property access on `undefined` throws (caught and rethrown as the
four-numbers message), and any `NaN` component throws the NaN message. -/
def exportArea (v : JVal) : Except String String :=
  match v with
  | .undefined => .error "Four numbers x0, y0, x1, y1 expected as parameters."
  | _ =>
      match parseInt (jsProp v "x0"), parseInt (jsProp v "y0"),
          parseInt (jsProp v "x1"), parseInt (jsProp v "y1") with
      | some x0, some y0, some x1, some y1 =>
          .ok ("--export-area=" ++ toString x0 ++ ":" ++ toString y0 ++ ":" ++
            toString x1 ++ ":" ++ toString y1)
      | _, _, _, _ => .error "Four numbers x0, y0, x1, y1 expected as parameters but NaN detected"

/-- The `export-width` builder: `parseInt` the parameter, throw on `NaN`. -/
def exportWidth (v : JVal) : Except String String :=
  match parseInt v with
  | some w => .ok ("--export-width=" ++ toString w)
  | none => .error "Expected a number parameter but NaN detected."

/-- The `export-height` builder: `parseInt` the parameter, throw on `NaN`. -/
def exportHeight (v : JVal) : Except String String :=
  match parseInt v with
  | some h => .ok ("--export-height=" ++ toString h)
  | none => .error "Expected a number parameter but NaN detected."

/-- The `supportedInkscapeOptions` allow-list: name-keyed builder lookup;
an unknown key yields no builder (in the source, indexing the object off the
allow-list yields `undefined`, and calling it throws a `TypeError`). -/
def supportedInkscapeOptions (folderPath : String) (optionName : String) :
    Option (JVal → Except String String) :=
  if optionName == "export-png" then some (exportPng folderPath)
  else if optionName == "export-area" then some exportArea
  else if optionName == "export-width" then some exportWidth
  else if optionName == "export-height" then some exportHeight
  else none

/-- The option-building loop over `Object.keys(img.inkscape)` in insertion
order: dispatch each key to its builder, collecting flags; the first throw
(unknown key or builder validation failure) aborts. -/
def buildOptions (folderPath : String) : List (String × JVal) → Except String (List String)
  | [] => .ok []
  | (key, v) :: rest =>
      match supportedInkscapeOptions folderPath key with
      | none => .error ("TypeError: supported option " ++ key ++ " is not a function")
      | some builder =>
          match builder v with
          | .error e => .error e
          | .ok flag =>
              match buildOptions folderPath rest with
              | .error e => .error e
              | .ok flags => .ok (flag :: flags)

/-- One image of the json payload: name, data-URI string, and the optional
`inkscape` transform map (keys in `Object.keys` order). -/
structure Image where
  name : String
  imageDataUrl : String
  inkscape : Option (List (String × JVal))
deriving Repr

/-- The json payload `{text, images}`. -/
structure JsonPayload where
  text : String
  images : List Image
deriving Repr

/-- Environment for the json job: `createFolder` outcome, `utils.writeFile`
outcome per file path, and `utils.executeCommand` on `/usr/bin/inkscape`
success per argument vector. -/
structure JsonEnv where
  mkdirOk : Bool
  writeOk : String → Bool
  execOk : List String → Bool

/-- The image-writing loop: for each image in order, run the data-URI regex
(`none` models a null match) and write the decoded file.  Returns the names
written in order and, when the loop aborted, the settled result; every abort
of this loop removed the folder recursively first. -/
def writeImages (parse : String → Option (String × String)) (env : JsonEnv)
    (folderPath : String) : List Image → List String × Option DownloadResult
  | [] => ([], none)
  | img :: rest =>
      match parse img.imageDataUrl with
      | none => ([], some ⟨none, some (UserErrors.ImageDataUrlExtractionFailed img.name)⟩)
      | some _ =>
          if env.writeOk (joinPath folderPath img.name) then
            let r := writeImages parse env folderPath rest
            (img.name :: r.1, r.2)
          else ([], some ⟨none, none⟩)

/-- The argument vector of one inkscape invocation:
`--without-gui --file=<imgPath> <flags...>`. -/
def inkscapeArgs (folderPath : String) (img : Image) (flags : List String) : List String :=
  ["--without-gui", "--file=" ++ joinPath folderPath img.name] ++ flags

/-- Result of the inkscape loop: completed, or aborted, with the argument
vectors of the tool invocations actually made, in order. -/
inductive InkResult where
  | ok (cmds : List (List String))
  | fail (cmds : List (List String))
deriving Repr, DecidableEq

/-- The inkscape loop: for each image carrying a transform, in order, build
the flags (a throw aborts with an internal failure *before* any invocation
for that image) and invoke the tool once; a failed invocation aborts too.
No branch of this loop deletes the folder. -/
def applyInkscape (env : JsonEnv) (folderPath : String) : List Image → InkResult
  | [] => .ok []
  | img :: rest =>
      match img.inkscape with
      | none => applyInkscape env folderPath rest
      | some opts =>
          match buildOptions folderPath opts with
          | .error _ => .fail []
          | .ok flags =>
              let args := inkscapeArgs folderPath img flags
              if env.execOk args then
                match applyInkscape env folderPath rest with
                | .ok cmds => .ok (args :: cmds)
                | .fail cmds => .fail (args :: cmds)
              else .fail [args]

/-- Outcome of the json job: settled result, whether the folder was deleted
during the job, image file names written, and inkscape invocations made. -/
structure JsonOutcome where
  result : DownloadResult
  deleted : Bool
  written : List String
  toolCmds : List (List String)
deriving Repr

/-- The job built by `createJsonDownloader(jsonData, fileName)` over folder
`folderPath`, parameterized by the external `data-uri-regex` matcher
(`parse`, returning the encoding and payload groups on a match): create the
folder; write the text file (failure deletes the folder, internal failure);
write every image in order (see `writeImages`); then run the inkscape loop
(see `applyInkscape`); success settles with the folder path. -/
def jsonJob (parse : String → Option (String × String)) (payload : JsonPayload)
    (fileName folderPath : String) (env : JsonEnv) : JsonOutcome :=
  if !env.mkdirOk then ⟨⟨none, none⟩, false, [], []⟩
  else if !env.writeOk (joinPath folderPath fileName) then ⟨⟨none, none⟩, true, [], []⟩
  else
    let w := writeImages parse env folderPath payload.images
    match w.2 with
    | some r => ⟨r, true, w.1, []⟩
    | none =>
        match applyInkscape env folderPath payload.images with
        | .fail cmds => ⟨⟨none, none⟩, false, w.1, cmds⟩
        | .ok cmds => ⟨⟨some folderPath, none⟩, false, w.1, cmds⟩

/-- Number of folder deletions initiated by `n` successive `dispose` calls
starting from state `s`. -/
def disposeCount (s : DownloaderState) : Nat → Nat
  | 0 => 0
  | n + 1 => (if (dispose s).2 then 1 else 0) + disposeCount (dispose s).1 n

/-- A clean inkscape step for one image: either it carries no transform, or
its flags build successfully and the tool invocation for it succeeds. -/
def inkStepOk (env : JsonEnv) (folderPath : String) (i : Image) : Prop :=
  match i.inkscape with
  | none => True
  | some opts => ∃ flags, buildOptions folderPath opts = Except.ok flags ∧
      env.execOk (inkscapeArgs folderPath i flags) = true

/-- The tool invocations contributed by a list of images (those whose
transform flags build successfully), in order. -/
def preInvocations (folderPath : String) : List Image → List (List String)
  | [] => []
  | i :: rest =>
      match i.inkscape with
      | none => preInvocations folderPath rest
      | some opts =>
          match buildOptions folderPath opts with
          | .error _ => preInvocations folderPath rest
          | .ok flags => inkscapeArgs folderPath i flags :: preInvocations folderPath rest

/-! ## Theorems -/

theorem downloadIfNeeded_cached (job r : DownloadResult) (s : DownloaderState)
    (h : s.downloadPromise = some r) : downloadIfNeeded job s = (s, r, false) := by
  simp [downloadIfNeeded, h]

theorem downloadIfNeeded_fresh (job : DownloadResult) (s : DownloaderState)
    (h : s.downloadPromise = none) :
    downloadIfNeeded job s =
      ({ s with
          downloadPromise := some job
          folderPath := job.folderPath
          userError := job.userError }, job, true) := by
  simp [downloadIfNeeded, h]

theorem triggerN_cached (job r : DownloadResult) (s : DownloaderState)
    (h : s.downloadPromise = some r) :
    ∀ n, triggerN job s n = (s, List.replicate n r, 0) := by
  intro n
  induction n with
  | zero => simp [triggerN]
  | succ n ih =>
      simp [triggerN, downloadIfNeeded_cached job r s h, ih, List.replicate_succ]

theorem dispose_of_disposed (s : DownloaderState) (h : s.disposed = true) :
    dispose s = (s, false) := by
  simp [dispose, h]

theorem dispose_fst_disposed (s : DownloaderState) : (dispose s).1.disposed = true := by
  unfold dispose
  by_cases h : s.disposed = true
  · simp [h]
  · by_cases hc : s.dislabedCleanup = true
    · simp [h, hc]
    · cases hf : s.folderPath <;> simp [h, hc, hf]

theorem disposeCount_of_disposed (s : DownloaderState) (h : s.disposed = true) :
    ∀ n, disposeCount s n = 0 := by
  intro n
  induction n generalizing s with
  | zero => rfl
  | succ n ih =>
      simp only [disposeCount, dispose_of_disposed s h]
      simpa using ih s h

theorem triggerN_initial_succ (job : DownloadResult) (m : Nat) :
    triggerN job DownloaderState.initial (m + 1) =
      ((downloadIfNeeded job DownloaderState.initial).1, job :: List.replicate m job, 1) := by
  have hc : (downloadIfNeeded job DownloaderState.initial).1.downloadPromise = some job := rfl
  simp only [triggerN, triggerN_cached job job _ hc m]
  rfl

/-- C1: triggering a Downloader any positive number of times invokes its job
exactly once, and every one of the calls resolves to the same cached result
value (the result of the job). -/
theorem C1_trigger_memoized (job : DownloadResult) (n : Nat) (hn : 1 ≤ n) :
    (triggerN job DownloaderState.initial n).2.2 = 1 ∧
    ∀ r ∈ (triggerN job DownloaderState.initial n).2.1, r = job := by
  cases n with
  | zero => exact absurd hn (by decide)
  | succ m =>
      rw [triggerN_initial_succ]
      refine ⟨rfl, ?_⟩
      intro r hr
      rcases List.mem_cons.mp hr with h | h
      · exact h
      · exact List.eq_of_mem_replicate h

theorem C1_trigger_memoized_witness :
    (1 : Nat) ≤ 2 ∧
    ((triggerN ⟨some "root/tmp_1", none⟩ DownloaderState.initial 2).2.2 = 1 ∧
      ∀ r ∈ (triggerN ⟨some "root/tmp_1", none⟩ DownloaderState.initial 2).2.1,
        r = ⟨some "root/tmp_1", none⟩) :=
  ⟨by decide, C1_trigger_memoized ⟨some "root/tmp_1", none⟩ 2 (by decide)⟩

/-- C2: `dispose` is idempotent and terminal: a no-op on an already-disposed
state and when no folder path was ever produced; it initiates deletion in the
remaining case; a second call never deletes again (so two calls delete at
most once) and is a pure no-op, hence cannot raise. -/
theorem C2_dispose_idempotent (s : DownloaderState) :
    (s.disposed = true → dispose s = (s, false)) ∧
    (s.folderPath = none → (dispose s).2 = false) ∧
    (s.disposed = false → s.dislabedCleanup = false → ∀ p, s.folderPath = some p →
      (dispose s).2 = true) ∧
    dispose (dispose s).1 = ((dispose s).1, false) ∧
    (if (dispose s).2 then 1 else 0) + (if (dispose (dispose s).1).2 then 1 else 0) ≤ 1 := by
  have h4 : dispose (dispose s).1 = ((dispose s).1, false) :=
    dispose_of_disposed _ (dispose_fst_disposed s)
  refine ⟨fun h => dispose_of_disposed s h, ?_, ?_, h4, ?_⟩
  · intro hf
    unfold dispose
    by_cases h : s.disposed = true
    · simp [h]
    · by_cases hc : s.dislabedCleanup = true <;> simp [h, hc, hf]
  · intro hd hc p hp
    unfold dispose
    simp [hd, hc, hp]
  · rw [h4]
    cases hb : (dispose s).2 <;> simp [hb]

theorem C2_dispose_idempotent_witness :
    (dispose ⟨some "root/tmp_1", none, false, false, none⟩).2 = true ∧
    dispose (dispose ⟨some "root/tmp_1", none, false, false, none⟩).1 =
      ((dispose ⟨some "root/tmp_1", none, false, false, none⟩).1, false) :=
  ⟨(C2_dispose_idempotent ⟨some "root/tmp_1", none, false, false, none⟩).2.2.1 rfl rfl
      "root/tmp_1" rfl,
   (C2_dispose_idempotent ⟨some "root/tmp_1", none, false, false, none⟩).2.2.2.1⟩

/-- C10: disposing a Downloader before its first trigger deletes nothing but
marks it disposed; a later trigger still runs the job in full and records the
produced folder; and because disposal is terminal, any number of further
dispose calls initiate zero deletions, so that folder is never deleted
through the Downloader. -/
theorem C10_dispose_before_trigger (job : DownloadResult) (p : String)
    (hjob : job.folderPath = some p) :
    (dispose DownloaderState.initial).2 = false ∧
    (dispose DownloaderState.initial).1.disposed = true ∧
    (downloadIfNeeded job (dispose DownloaderState.initial).1).2.2 = true ∧
    (downloadIfNeeded job (dispose DownloaderState.initial).1).2.1 = job ∧
    (downloadIfNeeded job (dispose DownloaderState.initial).1).1.folderPath = some p ∧
    ∀ n, disposeCount (downloadIfNeeded job (dispose DownloaderState.initial).1).1 n = 0 := by
  refine ⟨rfl, rfl, rfl, rfl, ?_, ?_⟩
  · show job.folderPath = some p
    exact hjob
  · exact disposeCount_of_disposed _ rfl

theorem C10_dispose_before_trigger_witness :
    (dispose DownloaderState.initial).2 = false ∧
    disposeCount
      (downloadIfNeeded ⟨some "root/tmp_1", none⟩ (dispose DownloaderState.initial).1).1 3 = 0 :=
  ⟨(C10_dispose_before_trigger ⟨some "root/tmp_1", none⟩ "root/tmp_1" rfl).1,
   (C10_dispose_before_trigger ⟨some "root/tmp_1", none⟩ "root/tmp_1" rfl).2.2.2.2.2 3⟩

theorem textJob_shape (text fileName folderPath : String) (env : TextEnv) :
    validShape (textJob text fileName folderPath env).result = true := by
  obtain ⟨mk, w⟩ := env
  cases mk <;> cases w <;> rfl

theorem gitJob_shape (url folderPath : String) (env : GitEnv) :
    validShape (gitJob url folderPath env).result = true := by
  obtain ⟨ex, ce⟩ := env
  cases ex <;> cases ce <;> rfl

theorem urlJob_shape (url fileName folderPath : String) (env : UrlEnv) :
    validShape (urlJob url fileName folderPath env).result = true := by
  obtain ⟨mk, net⟩ := env
  cases mk
  · rfl
  · cases net with
    | failure err => rfl
    | response sc rest =>
        unfold urlJob
        by_cases h1 : sc < 200 <;> by_cases h2 : 400 ≤ sc <;>
          cases rest <;> simp [h1, h2, validShape]

theorem tarballJob_shape (tarballPath folderPath : String) (env : TarEnv) :
    validShape (tarballJob tarballPath folderPath env).result = true := by
  obtain ⟨mk, te⟩ := env
  cases mk <;> cases te <;> rfl

theorem writeImages_shape (parse : String → Option (String × String)) (env : JsonEnv)
    (folderPath : String) : ∀ l r, (writeImages parse env folderPath l).2 = some r →
    validShape r = true := by
  intro l
  induction l with
  | nil =>
      intro r hr
      simp [writeImages] at hr
  | cons img rest ih =>
      intro r hr
      rcases hp : parse img.imageDataUrl with _ | g
      · simp [writeImages, hp] at hr
        rw [← hr]
        rfl
      · by_cases hw : env.writeOk (joinPath folderPath img.name)
        · simp [writeImages, hp, hw] at hr
          exact ih r hr
        · simp [writeImages, hp, hw] at hr
          rw [← hr]
          rfl

theorem jsonJob_shape (parse : String → Option (String × String)) (payload : JsonPayload)
    (fileName folderPath : String) (env : JsonEnv) :
    validShape (jsonJob parse payload fileName folderPath env).result = true := by
  unfold jsonJob
  by_cases hmk : env.mkdirOk
  · by_cases ht : env.writeOk (joinPath folderPath fileName)
    · simp only [hmk, ht, Bool.not_true, Bool.false_eq_true, if_false]
      rcases hw : (writeImages parse env folderPath payload.images).2 with _ | r
      · rcases happ : applyInkscape env folderPath payload.images with cmds | cmds <;>
          simp [hw, happ, validShape]
      · simp only [hw]
        exact writeImages_shape parse env folderPath payload.images r hw
    · simp [hmk, ht]
      rfl
  · simp [hmk]
    rfl

/-- C3: every result any of the five jobs can settle with has one of the
three documented shapes — success `(some folder, none)`, user-facing failure
`(none, some text)`, or internal failure `(none, none)`; never both fields
present. -/
theorem C3_result_shapes (text fileName url tarballPath folderPath : String)
    (tenv : TextEnv) (genv : GitEnv) (uenv : UrlEnv) (taenv : TarEnv)
    (parse : String → Option (String × String)) (payload : JsonPayload) (jenv : JsonEnv) :
    validShape (textJob text fileName folderPath tenv).result = true ∧
    validShape (gitJob url folderPath genv).result = true ∧
    validShape (urlJob url fileName folderPath uenv).result = true ∧
    validShape (tarballJob tarballPath folderPath taenv).result = true ∧
    validShape (jsonJob parse payload fileName folderPath jenv).result = true :=
  ⟨textJob_shape text fileName folderPath tenv,
   gitJob_shape url folderPath genv,
   urlJob_shape url fileName folderPath uenv,
   tarballJob_shape tarballPath folderPath taenv,
   jsonJob_shape parse payload fileName folderPath jenv⟩

/-- C4: for the url job (folder created, response received), a status outside
`[200, 400)` settles with no folder path and the formatted bad-response
message, which literally embeds the URL and the status code; a status inside
the band whose stream then finishes settles with the allocated folder path. -/
theorem C4_urlJob_status (url fileName folderPath : String) (statusCode : Nat)
    (rest : StreamEnd) (env : UrlEnv) (hmk : env.mkdirOk = true)
    (hnet : env.net = .response statusCode rest) :
    ((statusCode < 200 ∨ 400 ≤ statusCode) →
      (urlJob url fileName folderPath env).result =
        ⟨none, some (UserErrors.LoadingBadResponse url statusCode)⟩ ∧
      ∃ a b, UserErrors.LoadingBadResponse url statusCode =
        a ++ url ++ b ++ toString statusCode) ∧
    (200 ≤ statusCode → statusCode < 400 → rest = .finish →
      (urlJob url fileName folderPath env).result = ⟨some folderPath, none⟩) := by
  constructor
  · intro h
    refine ⟨?_, "failed to download URL ", " - got response status ", rfl⟩
    cases rest <;> rcases h with h | h <;> simp [urlJob, hmk, hnet, h]
  · intro h1 h2 hrest
    subst hrest
    have ha : ¬ statusCode < 200 := Nat.not_lt.mpr h1
    have hb : ¬ 400 ≤ statusCode := Nat.not_le.mpr h2
    simp [urlJob, hmk, hnet, ha, hb]

theorem C4_urlJob_status_witness :
    (urlJob "http://a.test/x" "f.bin" "root/tmp_1" ⟨true, .response 404 .finish⟩).result =
      ⟨none, some (UserErrors.LoadingBadResponse "http://a.test/x" 404)⟩ ∧
    (urlJob "http://a.test/x" "f.bin" "root/tmp_1" ⟨true, .response 200 .finish⟩).result =
      ⟨some "root/tmp_1", none⟩ :=
  ⟨((C4_urlJob_status "http://a.test/x" "f.bin" "root/tmp_1" 404 .finish
      ⟨true, .response 404 .finish⟩ rfl rfl).1 (Or.inr (by decide))).1,
   (C4_urlJob_status "http://a.test/x" "f.bin" "root/tmp_1" 200 .finish
      ⟨true, .response 200 .finish⟩ rfl rfl).2 (by decide) (by decide) rfl⟩

/-- C5 counterexample: a url job hitting status 404 whose body stream then
finishes is a failure (bad-response user error), yet the folder is deleted
neither before settlement nor afterwards — refuting "bad status or stream
error → delete folder before the job settles". -/
theorem C5_badStatus_no_delete_cex :
    (urlJob "http://a.test/x" "f.bin" "root/tmp_1"
        ⟨true, .response 404 .finish⟩).result.userError =
      some (UserErrors.LoadingBadResponse "http://a.test/x" 404) ∧
    (urlJob "http://a.test/x" "f.bin" "root/tmp_1"
        ⟨true, .response 404 .finish⟩).deletedBeforeSettle = false ∧
    (urlJob "http://a.test/x" "f.bin" "root/tmp_1"
        ⟨true, .response 404 .finish⟩).deletedAfterSettle = false :=
  ⟨rfl, rfl, rfl⟩

/-- C5 (amended): the url job deletes the partially created folder before
settling exactly on a stream `error` event (with or without a prior in-band
response); on a bad response status it settles without deleting — the folder
is removed only if the stream errors later, after settlement. -/
theorem C5_cleanup_on_stream_error (url fileName folderPath err : String)
    (statusCode : Nat) (rest : StreamEnd) (env : UrlEnv) (hmk : env.mkdirOk = true) :
    (env.net = .failure err →
      (urlJob url fileName folderPath env).deletedBeforeSettle = true) ∧
    (env.net = .response statusCode rest → 200 ≤ statusCode → statusCode < 400 →
      rest = .fail err →
      (urlJob url fileName folderPath env).deletedBeforeSettle = true) ∧
    (env.net = .response statusCode rest → (statusCode < 200 ∨ 400 ≤ statusCode) →
      (urlJob url fileName folderPath env).deletedBeforeSettle = false ∧
      ((urlJob url fileName folderPath env).deletedAfterSettle = true ↔
        ∃ e, rest = .fail e)) := by
  refine ⟨?_, ?_, ?_⟩
  · intro hnet
    simp [urlJob, hmk, hnet]
  · intro hnet h1 h2 hrest
    subst hrest
    have ha : ¬ statusCode < 200 := Nat.not_lt.mpr h1
    have hb : ¬ 400 ≤ statusCode := Nat.not_le.mpr h2
    simp [urlJob, hmk, hnet, ha, hb]
  · intro hnet h
    cases rest with
    | finish =>
        constructor
        · rcases h with h | h <;> simp [urlJob, hmk, hnet, h]
        · constructor
          · intro hfalse
            rcases h with h | h <;> simp [urlJob, hmk, hnet, h] at hfalse
          · rintro ⟨e, he⟩
            exact StreamEnd.noConfusion he
    | fail e =>
        refine ⟨?_, ?_⟩
        · rcases h with h | h <;> simp [urlJob, hmk, hnet, h]
        · constructor
          · intro _
            exact ⟨e, rfl⟩
          · intro _
            rcases h with h | h <;> simp [urlJob, hmk, hnet, h]

theorem C5_cleanup_on_stream_error_witness :
    (urlJob "http://a.test/x" "f.bin" "root/tmp_1"
        ⟨true, .failure "socket hang up"⟩).deletedBeforeSettle = true ∧
    (urlJob "http://a.test/x" "f.bin" "root/tmp_1"
        ⟨true, .response 404 .finish⟩).deletedBeforeSettle = false :=
  ⟨(C5_cleanup_on_stream_error "http://a.test/x" "f.bin" "root/tmp_1" "socket hang up"
      0 .finish ⟨true, .failure "socket hang up"⟩ rfl).1 rfl,
   ((C5_cleanup_on_stream_error "http://a.test/x" "f.bin" "root/tmp_1" "" 404 .finish
      ⟨true, .response 404 .finish⟩ rfl).2.2 rfl (Or.inr (by decide))).1⟩

/-- C6: the git job (no naming conflict) invokes exactly
`git clone --depth 1 <url> <dir>` with a 120000 ms timeout; on any clone
failure it settles with no folder path and the clone-failure message (which
literally embeds the URL) and performs no folder deletion. -/
theorem C6_gitJob_contract (url folderPath : String) (env : GitEnv)
    (hex : env.existsAlready = false) :
    (gitJob url folderPath env).cmd =
      some ⟨"git", ["clone", "--depth", "1", url, folderPath], some 120000⟩ ∧
    (∀ e, env.cloneErr = some e →
      (gitJob url folderPath env).result = ⟨none, some (UserErrors.GitCloneFailed url)⟩ ∧
      (gitJob url folderPath env).deleted = false) ∧
    ∃ a, UserErrors.GitCloneFailed url = a ++ url := by
  refine ⟨?_, ?_, "failed to clone git repository ", rfl⟩
  · rcases hc : env.cloneErr with _ | e <;> simp [gitJob, hex, hc, minutes]
  · intro e hc
    simp [gitJob, hex, hc]

theorem C6_gitJob_contract_witness :
    (gitJob "https://a.test/r.git" "root/tmp_1" ⟨false, some "exit 128"⟩).cmd =
      some ⟨"git", ["clone", "--depth", "1", "https://a.test/r.git", "root/tmp_1"],
        some 120000⟩ ∧
    (gitJob "https://a.test/r.git" "root/tmp_1" ⟨false, some "exit 128"⟩).result =
      ⟨none, some (UserErrors.GitCloneFailed "https://a.test/r.git")⟩ ∧
    (gitJob "https://a.test/r.git" "root/tmp_1" ⟨false, some "exit 128"⟩).deleted = false :=
  ⟨(C6_gitJob_contract "https://a.test/r.git" "root/tmp_1" ⟨false, some "exit 128"⟩ rfl).1,
   ((C6_gitJob_contract "https://a.test/r.git" "root/tmp_1" ⟨false, some "exit 128"⟩ rfl).2.1
      "exit 128" rfl).1,
   ((C6_gitJob_contract "https://a.test/r.git" "root/tmp_1" ⟨false, some "exit 128"⟩ rfl).2.1
      "exit 128" rfl).2⟩

theorem writeImages_abort (parse : String → Option (String × String)) (env : JsonEnv)
    (folderPath : String) (pre post : List Image) (img : Image)
    (hpre : ∀ i ∈ pre, (parse i.imageDataUrl).isSome = true ∧
      env.writeOk (joinPath folderPath i.name) = true)
    (hbad : parse img.imageDataUrl = none) :
    writeImages parse env folderPath (pre ++ img :: post) =
      (pre.map Image.name,
       some ⟨none, some (UserErrors.ImageDataUrlExtractionFailed img.name)⟩) := by
  induction pre with
  | nil => simp [writeImages, hbad]
  | cons a t ih =>
      obtain ⟨hp, hw⟩ := hpre a (List.mem_cons_self a t)
      obtain ⟨g, hg⟩ := Option.isSome_iff_exists.mp hp
      have ih2 := ih fun i hi => hpre i (List.mem_cons_of_mem a hi)
      simp [writeImages, hg, hw, ih2]

/-- C7: in a json job whose image list has a first malformed data-URI (every
earlier image parses and writes fine), that image aborts the whole job: the
folder is deleted, the job settles with no folder path and the extraction
message literally embedding the name of that image, only the earlier images were
written (none after the offender), and no tool invocation happens. -/
theorem C7_jsonJob_malformed_dataUri (parse : String → Option (String × String))
    (payload : JsonPayload) (fileName folderPath : String) (env : JsonEnv)
    (pre post : List Image) (img : Image)
    (hsplit : payload.images = pre ++ img :: post)
    (hmk : env.mkdirOk = true)
    (htext : env.writeOk (joinPath folderPath fileName) = true)
    (hpre : ∀ i ∈ pre, (parse i.imageDataUrl).isSome = true ∧
      env.writeOk (joinPath folderPath i.name) = true)
    (hbad : parse img.imageDataUrl = none) :
    (jsonJob parse payload fileName folderPath env).result =
      ⟨none, some (UserErrors.ImageDataUrlExtractionFailed img.name)⟩ ∧
    (jsonJob parse payload fileName folderPath env).deleted = true ∧
    (jsonJob parse payload fileName folderPath env).written = pre.map Image.name ∧
    (jsonJob parse payload fileName folderPath env).toolCmds = [] ∧
    ∃ a b, UserErrors.ImageDataUrlExtractionFailed img.name = a ++ img.name ++ b := by
  have hw := writeImages_abort parse env folderPath pre post img hpre hbad
  refine ⟨?_, ?_, ?_, ?_, "failed to save image ", " -- expected image data URI", rfl⟩ <;>
    simp [jsonJob, hmk, htext, hsplit, hw]

theorem C7_jsonJob_malformed_dataUri_witness :
    (jsonJob (fun s => if s == "bad" then none else some ("base64", "AAAA"))
        ⟨"tex", [⟨"good.png", "ok", none⟩, ⟨"bad.png", "bad", none⟩]⟩
        "doc.tex" "root/tmp_1" ⟨true, fun _ => true, fun _ => true⟩).result =
      ⟨none, some (UserErrors.ImageDataUrlExtractionFailed "bad.png")⟩ ∧
    (jsonJob (fun s => if s == "bad" then none else some ("base64", "AAAA"))
        ⟨"tex", [⟨"good.png", "ok", none⟩, ⟨"bad.png", "bad", none⟩]⟩
        "doc.tex" "root/tmp_1" ⟨true, fun _ => true, fun _ => true⟩).deleted = true ∧
    (jsonJob (fun s => if s == "bad" then none else some ("base64", "AAAA"))
        ⟨"tex", [⟨"good.png", "ok", none⟩, ⟨"bad.png", "bad", none⟩]⟩
        "doc.tex" "root/tmp_1" ⟨true, fun _ => true, fun _ => true⟩).written =
      List.map Image.name [⟨"good.png", "ok", none⟩] :=
  ⟨(C7_jsonJob_malformed_dataUri (fun s => if s == "bad" then none else some ("base64", "AAAA"))
      ⟨"tex", [⟨"good.png", "ok", none⟩, ⟨"bad.png", "bad", none⟩]⟩ "doc.tex" "root/tmp_1"
      ⟨true, fun _ => true, fun _ => true⟩ [⟨"good.png", "ok", none⟩] []
      ⟨"bad.png", "bad", none⟩ rfl rfl rfl
      (fun i hi => by
        rcases List.mem_singleton.mp hi with h
        subst h
        exact ⟨rfl, rfl⟩) rfl).1,
   (C7_jsonJob_malformed_dataUri (fun s => if s == "bad" then none else some ("base64", "AAAA"))
      ⟨"tex", [⟨"good.png", "ok", none⟩, ⟨"bad.png", "bad", none⟩]⟩ "doc.tex" "root/tmp_1"
      ⟨true, fun _ => true, fun _ => true⟩ [⟨"good.png", "ok", none⟩] []
      ⟨"bad.png", "bad", none⟩ rfl rfl rfl
      (fun i hi => by
        rcases List.mem_singleton.mp hi with h
        subst h
        exact ⟨rfl, rfl⟩) rfl).2.1,
   (C7_jsonJob_malformed_dataUri (fun s => if s == "bad" then none else some ("base64", "AAAA"))
      ⟨"tex", [⟨"good.png", "ok", none⟩, ⟨"bad.png", "bad", none⟩]⟩ "doc.tex" "root/tmp_1"
      ⟨true, fun _ => true, fun _ => true⟩ [⟨"good.png", "ok", none⟩] []
      ⟨"bad.png", "bad", none⟩ rfl rfl rfl
      (fun i hi => by
        rcases List.mem_singleton.mp hi with h
        subst h
        exact ⟨rfl, rfl⟩) rfl).2.2.1⟩

theorem string_append_left_cancel (s a b : String) (h : s ++ a = s ++ b) : a = b := by
  have hd := congrArg String.data h
  simp [String.data_append] at hd
  exact String.ext hd

theorem joinPath_name_inj (root a b : String) (h : joinPath root a = joinPath root b) :
    a = b :=
  string_append_left_cancel (root ++ "/") a b h

theorem inkscapeArgs_name_eq (folderPath : String) (i j : Image) (fl1 fl2 : List String)
    (h : inkscapeArgs folderPath i fl1 = inkscapeArgs folderPath j fl2) : i.name = j.name := by
  simp only [inkscapeArgs, List.cons_append, List.nil_append, List.cons.injEq] at h
  exact joinPath_name_inj folderPath i.name j.name
    (string_append_left_cancel "--file=" _ _ h.2.1)

theorem applyInkscape_validation_abort (env : JsonEnv) (folderPath : String)
    (pre post : List Image) (img : Image) (opts : List (String × JVal)) (e : String)
    (hpre : ∀ i ∈ pre, inkStepOk env folderPath i)
    (himg : img.inkscape = some opts)
    (hfail : buildOptions folderPath opts = .error e) :
    applyInkscape env folderPath (pre ++ img :: post) =
      .fail (preInvocations folderPath pre) := by
  induction pre with
  | nil => simp [applyInkscape, himg, hfail, preInvocations]
  | cons a t ih =>
      have ih2 := ih fun i hi => hpre i (List.mem_cons_of_mem a hi)
      rcases hk : a.inkscape with _ | aopts
      · simp [applyInkscape, preInvocations, hk, ih2]
      · have ha : ∃ flags, buildOptions folderPath aopts = Except.ok flags ∧
            env.execOk (inkscapeArgs folderPath a flags) = true := by
          simpa [inkStepOk, hk] using hpre a (List.mem_cons_self a t)
        obtain ⟨flags, hb, hex⟩ := ha
        simp [applyInkscape, preInvocations, hk, hb, hex, ih2]

theorem preInvocations_mem (folderPath : String) :
    ∀ l : List Image, ∀ c ∈ preInvocations folderPath l,
      ∃ i ∈ l, ∃ flags, c = inkscapeArgs folderPath i flags := by
  intro l
  induction l with
  | nil =>
      intro c hc
      simp [preInvocations] at hc
  | cons a t ih =>
      intro c hc
      rcases hk : a.inkscape with _ | aopts
      · simp only [preInvocations, hk] at hc
        obtain ⟨i, hi, flags, hfl⟩ := ih c hc
        exact ⟨i, List.mem_cons_of_mem a hi, flags, hfl⟩
      · rcases hb : buildOptions folderPath aopts with e | flags
        · simp only [preInvocations, hk, hb] at hc
          obtain ⟨i, hi, fl, hfl⟩ := ih c hc
          exact ⟨i, List.mem_cons_of_mem a hi, fl, hfl⟩
        · simp only [preInvocations, hk, hb] at hc
          rcases List.mem_cons.mp hc with h | h
          · exact ⟨a, List.mem_cons_self a t, flags, h⟩
          · obtain ⟨i, hi, fl, hfl⟩ := ih c h
            exact ⟨i, List.mem_cons_of_mem a hi, fl, hfl⟩

/-- C8: in a json job whose image writes all succeed, a transform-option
validation failure on an image (earlier transformed images all clean, and
named differently) aborts the whole job with an internal-only failure (both
result fields absent), the folder is not deleted, the invocations made are
exactly those of the earlier images, and none of them is an invocation for
the offending image. -/
theorem C8_jsonJob_transform_validation (parse : String → Option (String × String))
    (payload : JsonPayload) (fileName folderPath : String) (env : JsonEnv)
    (pre post : List Image) (img : Image) (opts : List (String × JVal)) (e : String)
    (hsplit : payload.images = pre ++ img :: post)
    (hmk : env.mkdirOk = true)
    (htext : env.writeOk (joinPath folderPath fileName) = true)
    (hphaseA : (writeImages parse env folderPath payload.images).2 = none)
    (hpre : ∀ i ∈ pre, inkStepOk env folderPath i)
    (himg : img.inkscape = some opts)
    (hfail : buildOptions folderPath opts = .error e)
    (hname : ∀ i ∈ pre, i.name ≠ img.name) :
    (jsonJob parse payload fileName folderPath env).result = ⟨none, none⟩ ∧
    (jsonJob parse payload fileName folderPath env).deleted = false ∧
    (jsonJob parse payload fileName folderPath env).toolCmds =
      preInvocations folderPath pre ∧
    ∀ c ∈ (jsonJob parse payload fileName folderPath env).toolCmds,
      ∀ flags, c ≠ inkscapeArgs folderPath img flags := by
  have happ := applyInkscape_validation_abort env folderPath pre post img opts e
    hpre himg hfail
  rw [hsplit] at hphaseA
  have hjob : jsonJob parse payload fileName folderPath env =
      ⟨⟨none, none⟩, false, (writeImages parse env folderPath (pre ++ img :: post)).1,
        preInvocations folderPath pre⟩ := by
    unfold jsonJob
    rw [hsplit]
    simp [hmk, htext, hphaseA, happ]
  refine ⟨by rw [hjob], by rw [hjob], by rw [hjob], ?_⟩
  rw [hjob]
  intro c hc flags hcontra
  obtain ⟨i, hi, fl, hfl⟩ := preInvocations_mem folderPath pre c hc
  have heq : inkscapeArgs folderPath i fl = inkscapeArgs folderPath img flags := by
    rw [← hfl]
    exact hcontra
  exact hname i hi (inkscapeArgs_name_eq folderPath i img fl flags heq)

theorem C8_jsonJob_transform_validation_witness :
    (jsonJob (fun _ => some ("base64", "AAAA"))
        ⟨"tex", [⟨"img.svg", "du", some [("export-width", JVal.str "not-a-number")]⟩]⟩
        "doc.tex" "root/tmp_1" ⟨true, fun _ => true, fun _ => true⟩).result =
      ⟨none, none⟩ ∧
    (jsonJob (fun _ => some ("base64", "AAAA"))
        ⟨"tex", [⟨"img.svg", "du", some [("export-width", JVal.str "not-a-number")]⟩]⟩
        "doc.tex" "root/tmp_1" ⟨true, fun _ => true, fun _ => true⟩).deleted = false ∧
    (jsonJob (fun _ => some ("base64", "AAAA"))
        ⟨"tex", [⟨"img.svg", "du", some [("export-width", JVal.str "not-a-number")]⟩]⟩
        "doc.tex" "root/tmp_1" ⟨true, fun _ => true, fun _ => true⟩).toolCmds = [] :=
  ⟨(C8_jsonJob_transform_validation (fun _ => some ("base64", "AAAA"))
      ⟨"tex", [⟨"img.svg", "du", some [("export-width", JVal.str "not-a-number")]⟩]⟩
      "doc.tex" "root/tmp_1" ⟨true, fun _ => true, fun _ => true⟩ [] []
      ⟨"img.svg", "du", some [("export-width", JVal.str "not-a-number")]⟩
      [("export-width", JVal.str "not-a-number")]
      "Expected a number parameter but NaN detected." rfl rfl rfl rfl
      (by simp) rfl rfl (by simp)).1,
   (C8_jsonJob_transform_validation (fun _ => some ("base64", "AAAA"))
      ⟨"tex", [⟨"img.svg", "du", some [("export-width", JVal.str "not-a-number")]⟩]⟩
      "doc.tex" "root/tmp_1" ⟨true, fun _ => true, fun _ => true⟩ [] []
      ⟨"img.svg", "du", some [("export-width", JVal.str "not-a-number")]⟩
      [("export-width", JVal.str "not-a-number")]
      "Expected a number parameter but NaN detected." rfl rfl rfl rfl
      (by simp) rfl rfl (by simp)).2.1,
   (C8_jsonJob_transform_validation (fun _ => some ("base64", "AAAA"))
      ⟨"tex", [⟨"img.svg", "du", some [("export-width", JVal.str "not-a-number")]⟩]⟩
      "doc.tex" "root/tmp_1" ⟨true, fun _ => true, fun _ => true⟩ [] []
      ⟨"img.svg", "du", some [("export-width", JVal.str "not-a-number")]⟩
      [("export-width", JVal.str "not-a-number")]
      "Expected a number parameter but NaN detected." rfl rfl rfl rfl
      (by simp) rfl rfl (by simp)).2.2.1⟩

/-- C9 counterexample: the `export-width` builder, applied to the
non-integer parameter `"5.7"`, does not raise a validation failure — it
produces the flag `--export-width=5`, because JavaScript `parseInt` keeps
the leading integer part of the string. -/
theorem C9_exportWidth_accepts_noninteger_cex :
    exportWidth (JVal.str "5.7") = Except.ok "--export-width=5" ∧
    ∀ e, exportWidth (JVal.str "5.7") ≠ Except.error e := by
  constructor
  · rfl
  · intro e h
    rw [show exportWidth (JVal.str "5.7") = Except.ok "--export-width=5" from rfl] at h
    exact Except.noConfusion h

/-- C9 (amended): `export-png` accepts exactly strings and raises otherwise;
`export-width`, `export-height` and the four `export-area` bounds validate
via JavaScript `parseInt` of the stringified parameter — they raise a
validation failure exactly when no leading integer can be parsed (`NaN`;
for `export-area` also when the parameter is nullish), and otherwise emit
the flag built from the parsed leading integer, so non-integer parameters
with an integer prefix (such as `"5.7"`) are accepted, truncated. -/
theorem C9_builders_parseInt_contract (folderPath : String) (v : JVal) :
    (∀ s, v = JVal.str s →
      exportPng folderPath v = Except.ok ("--export-png=" ++ (folderPath ++ "/" ++ s))) ∧
    ((∀ s, v ≠ JVal.str s) → exportPng folderPath v = Except.error "File name expected.") ∧
    (∀ w, parseInt v = some w →
      exportWidth v = Except.ok ("--export-width=" ++ toString w)) ∧
    (parseInt v = none →
      exportWidth v = Except.error "Expected a number parameter but NaN detected.") ∧
    (∀ w, parseInt v = some w →
      exportHeight v = Except.ok ("--export-height=" ++ toString w)) ∧
    (parseInt v = none →
      exportHeight v = Except.error "Expected a number parameter but NaN detected.") ∧
    (v = JVal.undefined →
      exportArea v = Except.error "Four numbers x0, y0, x1, y1 expected as parameters.") ∧
    (v ≠ JVal.undefined → ∀ x0 y0 x1 y1 : Int,
      parseInt (jsProp v "x0") = some x0 → parseInt (jsProp v "y0") = some y0 →
      parseInt (jsProp v "x1") = some x1 → parseInt (jsProp v "y1") = some y1 →
      exportArea v = Except.ok ("--export-area=" ++ toString x0 ++ ":" ++ toString y0 ++
        ":" ++ toString x1 ++ ":" ++ toString y1)) ∧
    (v ≠ JVal.undefined →
      (parseInt (jsProp v "x0") = none ∨ parseInt (jsProp v "y0") = none ∨
       parseInt (jsProp v "x1") = none ∨ parseInt (jsProp v "y1") = none) →
      exportArea v =
        Except.error "Four numbers x0, y0, x1, y1 expected as parameters but NaN detected") := by
  refine ⟨?_, ?_, ?_, ?_, ?_, ?_, ?_, ?_, ?_⟩
  · intro s h
    subst h
    rfl
  · intro h
    cases v with
    | str s => exact absurd rfl (h s)
    | int n => rfl
    | obj fields => rfl
    | undefined => rfl
  · intro w h
    unfold exportWidth
    rw [h]
  · intro h
    unfold exportWidth
    rw [h]
  · intro w h
    unfold exportHeight
    rw [h]
  · intro h
    unfold exportHeight
    rw [h]
  · intro h
    subst h
    rfl
  · intro hv x0 y0 x1 y1 h0 h1 h2 h3
    cases v with
    | undefined => exact absurd rfl hv
    | str s => exact Option.noConfusion h0
    | int n => exact Option.noConfusion h0
    | obj fields => simp [exportArea, h0, h1, h2, h3]
  · intro hv hnan
    cases v with
    | undefined => exact absurd rfl hv
    | str s => rfl
    | int n => rfl
    | obj fields =>
        rcases h0 : parseInt (jsProp (JVal.obj fields) "x0") with _ | a
        · simp [exportArea, h0]
        · rcases h1 : parseInt (jsProp (JVal.obj fields) "y0") with _ | b
          · simp [exportArea, h0, h1]
          · rcases h2 : parseInt (jsProp (JVal.obj fields) "x1") with _ | c
            · simp [exportArea, h0, h1, h2]
            · rcases h3 : parseInt (jsProp (JVal.obj fields) "y1") with _ | d
              · simp [exportArea, h0, h1, h2, h3]
              · rcases hnan with h | h | h | h
                · rw [h0] at h
                  exact Option.noConfusion h
                · rw [h1] at h
                  exact Option.noConfusion h
                · rw [h2] at h
                  exact Option.noConfusion h
                · rw [h3] at h
                  exact Option.noConfusion h

theorem C9_builders_parseInt_contract_witness :
    exportWidth (JVal.int 7) = Except.ok ("--export-width=" ++ toString (7 : Int)) ∧
    exportWidth (JVal.str "oops") =
      Except.error "Expected a number parameter but NaN detected." ∧
    exportPng "root/tmp_1" (JVal.str "a.png") =
      Except.ok ("--export-png=" ++ ("root/tmp_1" ++ "/" ++ "a.png")) :=
  ⟨(C9_builders_parseInt_contract "root/tmp_1" (JVal.int 7)).2.2.1 7 rfl,
   (C9_builders_parseInt_contract "root/tmp_1" (JVal.str "oops")).2.2.2.1 rfl,
   (C9_builders_parseInt_contract "root/tmp_1" (JVal.str "a.png")).1 "a.png" rfl⟩

end DownloadManager
